import Mathlib

/-!
Verification of the sampark email ingestion/threading engine.

The definitions below are a shallow embedding of the Python sources:
* `backend/sampark/adapters/email/client.py` (EmailClient: parsing,
  thread-id extraction, reply composition, mailbox polling),
* `backend/sampark/adapters/email/service.py` (EmailService: the
  persistence pipeline over EmailThread / EmailMessage records).

Headers are modelled as plain strings where the empty string plays the
role of an absent header (Python code tests headers with truthiness,
`msg.get(h, "")`, so a missing header and an empty one are
indistinguishable there as well).
-/

namespace Sampark

/-! ## Regex helpers of `client.py`

`_extract_thread_id` uses `re.findall(r'<([^<>]+)>', s)` and
`re.search` with the same pattern.  `collectIds` is a character-level
transcription of that regex's left-to-right scan: a token starts at a
`<`, is made of one or more characters none of which is `<` or `>`, and
ends at `>`; a `<` met while inside a candidate token restarts the
candidate (the regex attempt anchored at the earlier `<` fails and the
engine re-tries from the later `<`). -/

def collectIds : List Char → Option (List Char) → List String
  | [], _ => []
  | c :: rest, none =>
      if c = '<' then collectIds rest (some []) else collectIds rest none
  | c :: rest, some acc =>
      if c = '>' then
        (if acc.isEmpty then collectIds rest none
         else String.mk acc :: collectIds rest none)
      else if c = '<' then collectIds rest (some [])
      else collectIds rest (some (acc ++ [c]))

/-- Embeds `re.findall(r'<([^<>]+)>', s)` from `_extract_thread_id`. -/
def findMessageIds (s : String) : List String :=
  collectIds s.toList none

/-- Embeds `re.search(r'<([^<>]+)>', s)`: the first match of the same pattern. -/
def searchMessageId (s : String) : Option String :=
  (findMessageIds s).head?

/-- Python's `\s` on ASCII input (space, tab, newline, CR, VT, FF). -/
def pySpace (c : Char) : Bool :=
  c == ' ' || c == '\t' || c == '\n' || c == '\r' || c == '\x0b' || c == '\x0c'

/-- Case-insensitive match of the leading `(re|fwd)` alternative of
`re.sub(r'(?i)^(re|fwd)(\[\d+\])?:\s*', '', subject)`; returns the
remainder after the matched alternative. -/
def stripReFwd : List Char → Option (List Char)
  | c1 :: c2 :: c3 :: rest =>
      if c1.toLower == 'r' && c2.toLower == 'e' then some (c3 :: rest)
      else if c1.toLower == 'f' && c2.toLower == 'w' && c3.toLower == 'd' then some rest
      else none
  | [c1, c2] =>
      if c1.toLower == 'r' && c2.toLower == 'e' then some [] else none
  | _ => none

/-- The `(\[\d+\])?:` part of the same pattern when the bracket group is
taken: `[`, one or more digits, `]`, then the mandatory `:`. -/
def stripBracketColon : List Char → Option (List Char)
  | '[' :: rest =>
      let ds := rest.takeWhile Char.isDigit
      let rest2 := rest.dropWhile Char.isDigit
      if ds.isEmpty then none
      else
        match rest2 with
        | ']' :: ':' :: r => some r
        | _ => none
  | _ => none

/-- Embeds `re.sub(r'(?i)^(re|fwd)(\[\d+\])?:\s*', '', subject)` from
`_extract_thread_id`: the pattern is anchored at the start of the
string, so at most one prefix occurrence is removed. -/
def cleanSubject (s : String) : String :=
  match stripReFwd s.toList with
  | none => s
  | some rest =>
      match stripBracketColon rest with
      | some r => String.mk (r.dropWhile pySpace)
      | none =>
          match rest with
          | ':' :: r => String.mk (r.dropWhile pySpace)
          | _ => s

/-! ## `EmailClient._extract_thread_id` -/

/-- The header data `_extract_thread_id` reads from an incoming message:
`References`, `In-Reply-To`, `Subject` (raw strings, `""` when the
header is absent) and the address part of `From` (the code applies
`parseaddr(...)[1]`, so `fromAddr` is already the bare address). -/
structure RawHeaders where
  references : String
  inReplyTo : String
  subject : String
  fromAddr : String
  deriving Repr, DecidableEq

/-- Subject normalization of `_extract_thread_id`: strip the prefix
with `cleanSubject` and substitute `"No Subject"` when the result is
empty (`if not clean_subject`). -/
def normalizedSubject (s : String) : String :=
  let cs := cleanSubject s
  if cs.isEmpty then "No Subject" else cs

/-- Embeds `EmailClient._extract_thread_id` (client.py lines 147-181). -/
def extractThreadId (h : RawHeaders) : String :=
  match (if h.references.isEmpty then none else (findMessageIds h.references).head?) with
  | some tid => tid
  | none =>
      match (if h.inReplyTo.isEmpty then none else searchMessageId h.inReplyTo) with
      | some tid => tid
      | none => normalizedSubject h.subject ++ "_" ++ h.fromAddr

/-! ## `EmailClient.send_email`: the References header of a composed reply -/

/-- Tests whether `pat` is a leading segment of `l` (both raw character lists). -/
def listStartsWith : List Char → List Char → Bool
  | _, [] => true
  | [], _ :: _ => false
  | a :: as, b :: bs => a == b && listStartsWith as bs

/-- Tests whether `pat` occurs contiguously somewhere in `l`. -/
def listContainsSeg (l pat : List Char) : Bool :=
  match l with
  | [] => pat.isEmpty
  | _ :: rest => listStartsWith l pat || listContainsSeg rest pat

/-- Python's substring test `needle in hay`. -/
def strContains (hay needle : String) : Bool :=
  listContainsSeg hay.toList needle.toList

/-- The `References` header produced by `EmailClient.send_email`
(client.py lines 270-283) from its `in_reply_to` and `references`
arguments; `""` stands for an absent header / `None` argument. -/
def sendEmailReferences (in_reply_to references : String) : String :=
  if in_reply_to ≠ "" then
    if references ≠ "" then
      if strContains references in_reply_to then references
      else references ++ " <" ++ in_reply_to ++ ">"
    else "<" ++ in_reply_to ++ ">"
  else references

/-- The append-or-skip rule in the words of the spec ("substring check
on the bracketed id"): append ` <id>` unless the bracketed id is already
a substring of the existing references.  Used only to compare the spec's
rule with `sendEmailReferences`. -/
def claimReferencesRule (in_reply_to references : String) : String :=
  if strContains references ("<" ++ in_reply_to ++ ">") then references
  else references ++ " <" ++ in_reply_to ++ ">"

/-! ## Data model of `service.py` / `db/models.py`

`EmailThread.id` is a ULID in the source; it is modelled as a `Nat`
drawn from a fresh counter, which preserves exactly what the code needs
(uniqueness).  The `EmailThread` model in db/models.py maps only `id`,
`thread_id`, `subject`, `created_at` and `updated_at`: it has no
`participants` column, although service.py writes one — that mismatch
is load-bearing for the service-layer behavior modelled below.
`updated_at` is modelled as a `Nat` timestamp. -/

structure EmailData where
  message_id : String
  thread_id : String
  sender : String
  recipients : List String
  cc : List String
  subject : String
  body_text : String
  body_html : String
  in_reply_to : String
  references : String
  deriving Repr, DecidableEq

structure ThreadRec where
  id : Nat
  thread_id : String
  subject : String
  updated_at : Nat
  deriving Repr, DecidableEq

structure MessageRec where
  message_id : String
  thread_id : Nat
  sender : String
  recipients : String
  cc : String
  subject : String
  body_text : String
  body_html : String
  in_reply_to : String
  references : String
  is_sent_by_system : Bool
  deriving Repr, DecidableEq

structure DB where
  threads : List ThreadRec
  messages : List MessageRec
  nextId : Nat
  deriving Repr, DecidableEq

def DB.empty : DB := ⟨[], [], 0⟩

/-- Embeds the `", ".join(...)` used by `_save_email_message` to serialize
recipients and cc. -/
def joinComma : List String → String
  | [] => ""
  | [x] => x
  | x :: xs => x ++ ", " ++ joinComma xs

/-- Embeds `EmailService._get_thread_by_thread_id`. -/
def findThreadByThreadId (db : DB) (tid : String) : Option ThreadRec :=
  db.threads.find? (fun t => t.thread_id == tid)

/-- Embeds `EmailService._get_message_by_message_id` (existence part used by the
idempotency check). -/
def messageIdExists (db : DB) (mid : String) : Bool :=
  db.messages.any (fun m => m.message_id == mid)

/-- Embeds `EmailService._create_email_thread` (service.py lines
51-72).  The source constructs
`EmailThread(thread_id=…, subject=…, participants=json.dumps(…))`, but
the `EmailThread` model in db/models.py has no `participants` column,
so the SQLAlchemy declarative constructor raises `TypeError` for the
unmapped keyword on every call, before anything is added to the
session.  A `TypeError` is not a `SQLAlchemyError`, so the function's
own handler does not catch it and no thread is ever created: the
outcome is always the raised-exception case, modelled as `none`. -/
def createEmailThread (_db : DB) (_tid _subject : String) (_now : Nat) :
    Option (DB × ThreadRec) :=
  none

/-- Embeds `EmailService._get_participants`:
`getattr(thread, "participants", "[]")` — the attribute is unmapped
(db/models.py has no such column) and never loaded from the database,
so on a freshly loaded thread the default `"[]"` applies and
`json.loads` yields the empty list. -/
def getParticipants (_t : ThreadRec) : List String :=
  []

/-- Insertion into a Python set, modelled as an insertion-ordered
duplicate-free extension of the list (a deterministic refinement of the
unordered set). -/
def addIfAbsent (l : List String) (x : String) : List String :=
  if x ∈ l then l else l ++ [x]

/-- Lines 172-189 of `process_new_email`: `participants_set` =
existing participants plus the sender (when non-empty) plus every
non-empty recipient. -/
def mergeParticipants (old : List String) (sender : String) (recipients : List String) : List String :=
  (recipients.filter (fun r => r ≠ "")).foldl addIfAbsent
    (if sender ≠ "" then addIfAbsent old sender else old)

/-- Python set equality `set(a) == set(b)`. -/
def sameSet (a b : List String) : Bool :=
  a.all (fun x => b.contains x) && b.all (fun x => a.contains x)

/-- Embeds `EmailService._update_participants` (service.py lines
83-90).  The assignment `thread.participants = serialized` targets an
attribute that `EmailThread` does not map (db/models.py has no
`participants` column), so it only sets a plain Python attribute on the
instance; `add` + `commit` then find no mapped change, issue no UPDATE
(hence no `updated_at` bump), and the persisted store is unchanged. -/
def updateParticipants (db : DB) (_t : ThreadRec) (_ps : List String) : DB :=
  db

/-- Embeds the record construction of `EmailService._save_email_message`
(service.py lines 92-123): recipients and cc are serialized with
`", ".join`. -/
def saveMessageRecord (e : EmailData) (thread_id : Nat) (is_sent_by_system : Bool) :
    MessageRec :=
  { message_id := e.message_id
    thread_id := thread_id
    sender := e.sender
    recipients := joinComma e.recipients
    cc := joinComma e.cc
    subject := e.subject
    body_text := e.body_text
    body_html := e.body_html
    in_reply_to := e.in_reply_to
    references := e.references
    is_sent_by_system := is_sent_by_system }

/-- The body of `process_new_email` once a thread object is at hand
(service.py lines 172-207): compute the merged participant set in
memory, write it back through `_update_participants` when it differs
from the stored set (a write that persists nothing, see
`updateParticipants`), then save the message.  `saveFails` injects a
`SQLAlchemyError` inside `_save_email_message`, which rolls back the
message insert and makes the call return `None`. -/
def processFoundThread (db : DB) (t : ThreadRec) (e : EmailData) (saveFails : Bool) :
    DB × Option MessageRec :=
  let all_participants := getParticipants t
  let merged := mergeParticipants all_participants e.sender e.recipients
  let db1 := if sameSet all_participants merged then db
             else updateParticipants db t merged
  if saveFails then (db1, none)
  else ({ db1 with messages := db1.messages ++ [saveMessageRecord e t.id false] },
        some (saveMessageRecord e t.id false))

/-- Embeds `EmailService.process_new_email` (service.py lines 129-217)
for a service-owned session.  A duplicate `message_id` is skipped; a
missing thread goes through `_create_email_thread`, whose `TypeError`
(see `createEmailThread`) propagates to the function-level
`except Exception`, which logs, rolls back and returns `None`.  The
`some` branch of the creation result is kept to mirror the code path,
but it is unreachable. -/
def processNewEmail (db : DB) (e : EmailData) (now : Nat) (saveFails : Bool) :
    DB × Option MessageRec :=
  if messageIdExists db e.message_id then (db, none)
  else
    match findThreadByThreadId db e.thread_id with
    | some t => processFoundThread db t e saveFails
    | none =>
        match createEmailThread db e.thread_id e.subject now with
        | some r => processFoundThread r.1 r.2 e saveFails
        | none => (db, none)

/-- Embeds `__main__.process_email_callback`: the downstream auto-reply is sent
exactly when `process_new_email` returned a message (`if message:`). -/
def triggersAutoReply (r : DB × Option MessageRec) : Bool :=
  r.2.isSome

/-! ## `EmailClient.check_new_emails` (client.py lines 183-219)

Each batch element is the outcome of `_parse_email` on one fetched
unseen message (`Except.error ()` = the parse raised).  The loop body
calls `_parse_email` with no per-message handler, so a raised parse
error propagates to the function-level `except`, which logs and returns
`[]` — discarding both the messages already accumulated and the ones
not yet fetched. -/

def checkNewEmailsLoop : List (Except Unit EmailData) → List EmailData → List EmailData
  | [], acc => acc
  | Except.ok e :: rest, acc => checkNewEmailsLoop rest (acc ++ [e])
  | Except.error _ :: _, _ => []

def checkNewEmails (batch : List (Except Unit EmailData)) : List EmailData :=
  checkNewEmailsLoop batch []

/-! ## `EmailService.get_recent_threads` (service.py lines 370-398) -/

/-- One insertion step of sorting by `updated_at` descending (the SQL
`ORDER BY updated_at DESC`). -/
def insertByUpdatedDesc (t : ThreadRec) : List ThreadRec → List ThreadRec
  | [] => [t]
  | h :: rest =>
      if h.updated_at ≤ t.updated_at then t :: h :: rest
      else h :: insertByUpdatedDesc t rest

def sortByUpdatedDesc (l : List ThreadRec) : List ThreadRec :=
  l.foldr insertByUpdatedDesc []

/-- The default of the `limit` parameter (`limit: int = 10`). -/
def defaultRecentLimit : Nat := 10

/-- Embeds `EmailService.get_recent_threads`: `ORDER BY updated_at DESC LIMIT
limit OFFSET 0`; `queryFails` injects the `except` branch, which logs
and returns `[]`. -/
def getRecentThreads (db : DB) (limit : Nat) (queryFails : Bool) : List ThreadRec :=
  if queryFails then [] else (sortByUpdatedDesc db.threads).take limit

def getRecentThreadsDefault (db : DB) (queryFails : Bool) : List ThreadRec :=
  getRecentThreads db defaultRecentLimit queryFails

/-! ## `EmailService._prepare_reply_data` (service.py lines 303-330) -/

/-- Python's `s.split(",")`: split at every comma, keeping empty pieces. -/
def splitCommaAux : List Char → List Char → List String
  | [], cur => [String.mk cur]
  | ',' :: rest, cur => String.mk cur :: splitCommaAux rest []
  | c :: rest, cur => splitCommaAux rest (cur ++ [c])

def splitComma (s : String) : List String :=
  splitCommaAux s.toList []

/-- Python's `s.strip()` on ASCII input: drop leading and trailing
whitespace. -/
def pyStrip (s : String) : String :=
  String.mk (((s.toList.dropWhile pySpace).reverse.dropWhile pySpace).reverse)

/-- Python's `s.lower()` on ASCII input. -/
def pyLower (s : String) : String :=
  String.mk (s.toList.map Char.toLower)

/-- Embeds `[r.strip() for r in original_message.recipients.split(",") if r.strip()]`. -/
def cleanedRecipients (recipients : String) : List String :=
  ((splitComma recipients).map pyStrip).filter (fun r => r ≠ "")

/-- Loop body of `_prepare_reply_data`: append the recipient unless it
is the client's username or already collected. -/
def replyRecipientsStep (username : String) (acc : List String) (r : String) : List String :=
  if r ≠ username ∧ r ∉ acc then acc ++ [r] else acc

def prepareReplyData (orig : MessageRec) (username : String) :
    List String × String × String :=
  let recipients := (cleanedRecipients orig.recipients).foldl (replyRecipientsStep username) [orig.sender]
  let subject := if listStartsWith (pyLower orig.subject).toList ['r', 'e', ':'] then orig.subject
                 else "Re: " ++ orig.subject
  let references := if orig.references ≠ "" then orig.references else orig.message_id
  (recipients, subject, references)

/-- Embeds `EmailService._get_message_by_message_id`. -/
def findMessageByMessageId (db : DB) (mid : String) : Option MessageRec :=
  db.messages.find? (fun m => m.message_id == mid)

/-- The reply record persisted by `reply_to_email` (service.py lines
268-285) through `_save_email_message`: recipients, subject and
references from `_prepare_reply_data`, sender = the client's username,
no cc, `is_sent_by_system = True`, same thread as the original
message. -/
def replyMessageRecord (orig : MessageRec) (reply_id username body_text body_html : String) :
    MessageRec :=
  { message_id := reply_id
    thread_id := orig.thread_id
    sender := username
    recipients := joinComma (prepareReplyData orig username).1
    cc := ""
    subject := (prepareReplyData orig username).2.1
    body_text := body_text
    body_html := body_html
    in_reply_to := orig.message_id
    references := (prepareReplyData orig username).2.2
    is_sent_by_system := true }

/-- Embeds `EmailService.reply_to_email` (service.py lines 219-301) for
a service-owned session: look the original message up (missing →
`(False, None)`), send through the client (`sendOk` is the transport's
success flag; failure → `(False, None)` with nothing persisted), then
persist the sent reply; `saveFails` injects a `SQLAlchemyError` in
`_save_email_message` (the insert is rolled back and the reply message
reported as `None`). -/
def replyToEmail (db : DB) (message_id reply_id username body_text body_html : String)
    (sendOk saveFails : Bool) : DB × Option MessageRec :=
  match findMessageByMessageId db message_id with
  | none => (db, none)
  | some orig =>
      if sendOk then
        if saveFails then (db, none)
        else
          ({ db with messages := db.messages ++
              [replyMessageRecord orig reply_id username body_text body_html] },
            some (replyMessageRecord orig reply_id username body_text body_html))
      else (db, none)

/-! ## Concrete records used by witnesses and counterexamples -/

def mkEmail (mid tid sender : String) (recipients : List String) (subject : String) :
    EmailData :=
  ⟨mid, tid, sender, recipients, [], subject, "", "", "", ""⟩

def c2email : EmailData := mkEmail "m-c2" "t-c2" "alice@x" ["bob@x"] "Hello"

def c3email : EmailData := mkEmail "m-c3" "t1" "alice@x" ["bob@x"] "Hello"

def c5msg1 : EmailData := mkEmail "c5m1" "c5t" "u1@x" [] "s1"

def c5msg3 : EmailData := mkEmail "c5m3" "c5t" "u3@x" [] "s3"

def c7own : EmailData := mkEmail "c7m" "c7t" "system@example.com" ["user@x"] "s"

def c8email1 : EmailData := mkEmail "m1" "K" "alice@x" ["bob@x"] "s"

def c8email2 : EmailData := mkEmail "m2" "K" "bob@x" ["alice@x", "carol@x"] "s"

/-- The store after processing `c8email1` then `c8email2` on a fresh
database (the participant-accumulation scenario of the spec). -/
def c8state : DB :=
  (processNewEmail (processNewEmail DB.empty c8email1 0 false).1 c8email2 1 false).1

/-- A store seeded with one thread whose key matches `c2email` (threads
can exist only if written outside the broken creation path). -/
def c2db : DB := ⟨[⟨0, "t-c2", "Hello", 0⟩], [], 1⟩

/-- A store seeded with one thread whose key matches `c3email`. -/
def c3db : DB := ⟨[⟨0, "t1", "Hello", 0⟩], [], 1⟩

/-- A store seeded with one thread whose key matches `c7own`. -/
def c7db : DB := ⟨[⟨0, "c7t", "s", 0⟩], [], 1⟩

/-- A store seeded with one thread whose key matches the participant
scenario. -/
def c8dbSeeded : DB := ⟨[⟨0, "K", "s", 0⟩], [], 1⟩

def c10orig : MessageRec :=
  { message_id := "orig-1"
    thread_id := 0
    sender := "alice@x"
    recipients := "sys@x, bob@x, alice@x, bob@x"
    cc := ""
    subject := "Hello"
    body_text := ""
    body_html := ""
    in_reply_to := ""
    references := ""
    is_sent_by_system := false }

def c10origRe : MessageRec :=
  { c10orig with message_id := "orig-2", subject := "RE: Hello" }

def c1refsHeaders : RawHeaders := ⟨"<a> <b> <c>", "<x>", "Hi", "s@x"⟩

def c1inReplyHeaders : RawHeaders := ⟨"", "<x>", "Hi", "s@x"⟩

def c1subjectHeaders : RawHeaders := ⟨"", "", "Re: Hi", "s@x"⟩

end Sampark

/-! ## Claim theorems -/

open Sampark

/-- C6 counterexample: the claim says the subject normalization strips
repeated `Re:`/`Fwd:` prefixes, so that `clean("Re: Re[2]: Hi") = "Hi"`;
the regex substitution in `_extract_thread_id` is anchored at the start
of the string and therefore strips only the first prefix. -/
theorem c6_counterexample_repeated_strip :
    ¬ (Sampark.normalizedSubject "Re: Re[2]: Hi" = "Hi") := by decide

/-- C6 (amended): subject normalization strips exactly one leading
case-insensitive `Re:`/`Fwd:`/`Re[n]:`/`Fwd[n]:` prefix, so
`clean("Re: Re[2]: Hi") = "Re[2]: Hi"`, and substitutes `"No Subject"`
for an empty cleaned subject, so `clean("") = "No Subject"`. -/
theorem c6_subject_normalization_single_strip :
    Sampark.normalizedSubject "Re: Re[2]: Hi" = "Re[2]: Hi" ∧
    Sampark.normalizedSubject "" = "No Subject" ∧
    Sampark.normalizedSubject "Re: Hi" = "Hi" ∧
    Sampark.normalizedSubject "fwd[12]:  Hi" = "Hi" ∧
    Sampark.normalizedSubject "Fwd:  " = "No Subject" := by decide

/-- C4 counterexample: the claim's append-or-skip rule does the
substring check on the bracketed id, but `send_email` checks the raw
(unbracketed) id: with existing references `"<ab>"` and replied-to id
`"a"`, the code keeps `"<ab>"` (since `"a"` occurs in it) while the
bracketed-check rule would append `" <a>"`. -/
theorem c4_counterexample_bracketed_check :
    ¬ (Sampark.sendEmailReferences "a" "<ab>" = Sampark.claimReferencesRule "a" "<ab>") := by
  decide

/-- C4 (amended): when composing a reply with a non-empty replied-to id
and non-empty existing references, the new References header is the
existing string with ` <id>` appended only if the raw id is not already
a substring of it; in particular replying to `"b"` over `"<a> <b>"`
leaves `"<a> <b>"`, and replying to `"c"` yields `"<a> <b> <c>"`. -/
theorem c4_references_append_or_skip (irt refs : String)
    (h1 : irt ≠ "") (h2 : refs ≠ "") :
    Sampark.sendEmailReferences irt refs =
      (if Sampark.strContains refs irt then refs else refs ++ " <" ++ irt ++ ">") ∧
    Sampark.sendEmailReferences "b" "<a> <b>" = "<a> <b>" ∧
    Sampark.sendEmailReferences "c" "<a> <b>" = "<a> <b> <c>" := by
  refine ⟨?_, by decide, by decide⟩
  simp [Sampark.sendEmailReferences, h1, h2]

/-- Closed instance of `c4_references_append_or_skip` at `irt = "b"`,
`refs = "<a> <b>"`. -/
theorem c4_references_append_or_skip_witness :
    Sampark.sendEmailReferences "b" "<a> <b>" =
      (if Sampark.strContains "<a> <b>" "b" then "<a> <b>"
       else "<a> <b>" ++ " <" ++ "b" ++ ">") :=
  (c4_references_append_or_skip "b" "<a> <b>" (by decide) (by decide)).1

/-- C5: evaluation of `check_new_emails` at the failing batch.  A parse
failure on the second of three fetched messages propagates out of the
fetch loop to the function-level `except`, which returns `[]`: the tick
completes without raising, but messages 1 and 3 are NOT handed on for
persistence, contradicting the claimed per-message isolation (and the
repository's own test expectations for batch processing). -/
theorem c5_parse_failure_aborts_batch :
    Sampark.checkNewEmails
      [Except.ok Sampark.c5msg1, Except.error (), Except.ok Sampark.c5msg3] = [] := by decide

/-- C7: evaluation at the failing input.  A fetched message whose
sender equals the configured system address (`system@example.com`)
passes through `check_new_emails` unfiltered, and when its thread
already exists in the store (`c7db`; thread creation is separately
broken, see C8) `process_new_email` persists it as an inbound message
(`is_sent_by_system = false`); nothing in the source marks it seen or
discards it. -/
theorem c7_own_address_message_persisted :
    Sampark.checkNewEmails [Except.ok Sampark.c7own] = [Sampark.c7own] ∧
    ((Sampark.processNewEmail Sampark.c7db Sampark.c7own 0 false).1.messages.map
      Sampark.MessageRec.sender) = ["system@example.com"] ∧
    ((Sampark.processNewEmail Sampark.c7db Sampark.c7own 0 false).1.messages.map
      Sampark.MessageRec.is_sent_by_system) = [false] := by decide


/-! ### C1: thread-key priority -/

/-- A string whose `isEmpty` test succeeds is the empty string. -/
theorem string_eq_empty_of_isEmpty {s : String} (h : s.isEmpty = true) : s = "" := by
  cases s with
  | mk data =>
      cases data with
      | nil => rfl
      | cons a as =>
          exfalso
          simp [String.isEmpty, String.endPos, String.utf8ByteSize] at h
          have hb := congrArg String.Pos.byteIdx h
          have hpos := Char.utf8Size_pos a
          simp at hb
          omega

/-- C1: priority order of the thread key computed by
`_extract_thread_id`: a References header with at least one bracketed
token yields its first token (whatever follows it); otherwise a
non-empty In-Reply-To header with a bracketed token yields that token;
with neither header present, the key is the normalized subject, `"_"`,
and the sender address. -/
theorem c1_thread_key_priority (h : Sampark.RawHeaders) :
    (∀ tid rest, Sampark.findMessageIds h.references = tid :: rest →
        Sampark.extractThreadId h = tid)
  ∧ (Sampark.findMessageIds h.references = [] → h.inReplyTo ≠ "" →
        ∀ tid, Sampark.searchMessageId h.inReplyTo = some tid →
        Sampark.extractThreadId h = tid)
  ∧ (h.references = "" → h.inReplyTo = "" →
        Sampark.extractThreadId h =
          Sampark.normalizedSubject h.subject ++ "_" ++ h.fromAddr) := by
  refine ⟨?_, ?_, ?_⟩
  · intro tid rest htok
    cases hre : h.references.isEmpty with
    | false => simp [Sampark.extractThreadId, hre, htok]
    | true =>
        rw [string_eq_empty_of_isEmpty hre] at htok
        exact absurd htok (by simp [Sampark.findMessageIds, Sampark.collectIds])
  · intro hids hirt tid hsearch
    have hie : h.inReplyTo.isEmpty = false := by
      cases hie : h.inReplyTo.isEmpty with
      | false => rfl
      | true =>
          exact absurd (string_eq_empty_of_isEmpty hie) hirt
    cases hre : h.references.isEmpty with
    | true => simp [Sampark.extractThreadId, hre, hie, hsearch]
    | false => simp [Sampark.extractThreadId, hre, hie, hids, hsearch]
  · intro h1 h2
    have hre : h.references.isEmpty = true := by rw [h1]; rfl
    have hie : h.inReplyTo.isEmpty = true := by rw [h2]; rfl
    simp [Sampark.extractThreadId, hre, hie]

/-- Closed instances of `c1_thread_key_priority`: all three priority
branches at concrete headers. -/
theorem c1_thread_key_priority_witness :
    Sampark.extractThreadId Sampark.c1refsHeaders = "a" ∧
    Sampark.extractThreadId Sampark.c1inReplyHeaders = "x" ∧
    Sampark.extractThreadId Sampark.c1subjectHeaders =
      Sampark.normalizedSubject Sampark.c1subjectHeaders.subject ++ "_" ++
        Sampark.c1subjectHeaders.fromAddr :=
  ⟨(c1_thread_key_priority Sampark.c1refsHeaders).1 "a" ["b", "c"] (by decide),
   (c1_thread_key_priority Sampark.c1inReplyHeaders).2.1 (by decide) (by decide) "x" (by decide),
   (c1_thread_key_priority Sampark.c1subjectHeaders).2.2 rfl rfl⟩

/-! ### C9: get_recent_threads -/

/-- Membership through one insertion step of the descending sort. -/
theorem mem_insertByUpdatedDesc {t x : Sampark.ThreadRec} {l : List Sampark.ThreadRec} :
    x ∈ Sampark.insertByUpdatedDesc t l ↔ x = t ∨ x ∈ l := by
  induction l with
  | nil => simp [Sampark.insertByUpdatedDesc]
  | cons h rest ih =>
      by_cases hc : h.updated_at ≤ t.updated_at
      · simp [Sampark.insertByUpdatedDesc, hc]
      · simp [Sampark.insertByUpdatedDesc, hc, ih]
        tauto

/-- One insertion step preserves the descending order. -/
theorem pairwise_insertByUpdatedDesc {t : Sampark.ThreadRec} {l : List Sampark.ThreadRec}
    (h : List.Pairwise (fun a b => b.updated_at ≤ a.updated_at) l) :
    List.Pairwise (fun a b => b.updated_at ≤ a.updated_at)
      (Sampark.insertByUpdatedDesc t l) := by
  induction l with
  | nil => simp [Sampark.insertByUpdatedDesc]
  | cons hd rest ih =>
      rcases List.pairwise_cons.mp h with ⟨hhd, hrest⟩
      by_cases hc : hd.updated_at ≤ t.updated_at
      · rw [Sampark.insertByUpdatedDesc, if_pos hc]
        refine List.pairwise_cons.mpr ⟨?_, h⟩
        intro x hx
        rcases List.mem_cons.mp hx with h1 | h2
        · rw [h1]; exact hc
        · exact le_trans (hhd x h2) hc
      · rw [Sampark.insertByUpdatedDesc, if_neg hc]
        refine List.pairwise_cons.mpr ⟨?_, ih hrest⟩
        intro x hx
        rcases mem_insertByUpdatedDesc.mp hx with h1 | h2
        · rw [h1]; exact Nat.le_of_not_le hc
        · exact hhd x h2

/-- The full sort is ordered by `updated_at` descending. -/
theorem pairwise_sortByUpdatedDesc (l : List Sampark.ThreadRec) :
    List.Pairwise (fun a b => b.updated_at ≤ a.updated_at)
      (Sampark.sortByUpdatedDesc l) := by
  induction l with
  | nil => simp [Sampark.sortByUpdatedDesc]
  | cons hd rest ih => exact pairwise_insertByUpdatedDesc ih

/-- C9: `get_recent_threads` returns at most `limit` threads (at most 10
under the default limit), ordered by `updated_at` descending, and
returns `[]` instead of raising when the underlying query fails. -/
theorem c9_get_recent_threads (db : Sampark.DB) (lim : Nat) :
    (Sampark.getRecentThreads db lim false).length ≤ lim
  ∧ List.Pairwise (fun a b => b.updated_at ≤ a.updated_at)
      (Sampark.getRecentThreads db lim false)
  ∧ (Sampark.getRecentThreadsDefault db false).length ≤ 10
  ∧ Sampark.getRecentThreads db lim true = [] := by
  refine ⟨?_, ?_, ?_, rfl⟩
  · simp [Sampark.getRecentThreads]
  · exact List.Pairwise.sublist (List.take_sublist lim (Sampark.sortByUpdatedDesc db.threads))
      (pairwise_sortByUpdatedDesc db.threads)
  · simp [Sampark.getRecentThreadsDefault, Sampark.getRecentThreads,
      Sampark.defaultRecentLimit]

/-! ### C10: _prepare_reply_data -/

/-- One step of the reply-recipient fold appends at most one element. -/
theorem replyRecipientsStep_eq (username : String) (acc : List String) (r : String) :
    Sampark.replyRecipientsStep username acc r =
      acc ++ (if r ≠ username ∧ r ∉ acc then [r] else []) := by
  unfold Sampark.replyRecipientsStep
  split
  · rfl
  · simp

/-- The reply-recipient fold only ever appends to its accumulator. -/
theorem replyFold_append (username : String) (l acc : List String) :
    ∃ ext, l.foldl (Sampark.replyRecipientsStep username) acc = acc ++ ext := by
  induction l generalizing acc with
  | nil => exact ⟨[], by simp⟩
  | cons r rest ih =>
      rw [List.foldl_cons, replyRecipientsStep_eq]
      obtain ⟨ext, hext⟩ := ih (acc ++ (if r ≠ username ∧ r ∉ acc then [r] else []))
      exact ⟨(if r ≠ username ∧ r ∉ acc then [r] else []) ++ ext, by rw [hext, List.append_assoc]⟩

/-- Elements of the accumulator survive the reply-recipient fold. -/
theorem mem_replyFold_of_mem {username x : String} {l acc : List String} (hx : x ∈ acc) :
    x ∈ l.foldl (Sampark.replyRecipientsStep username) acc := by
  obtain ⟨ext, hext⟩ := replyFold_append username l acc
  rw [hext]
  exact List.mem_append_left _ hx

/-- Every processed recipient other than the username ends up in the
fold's result. -/
theorem mem_replyFold_of_mem_list {username x : String} {l : List String}
    (hx : x ∈ l) (hne : x ≠ username) :
    ∀ acc, x ∈ l.foldl (Sampark.replyRecipientsStep username) acc := by
  induction l with
  | nil => cases hx
  | cons r rest ih =>
      intro acc
      rw [List.foldl_cons]
      rcases List.mem_cons.mp hx with h1 | h2
      · subst h1
        apply mem_replyFold_of_mem
        rw [replyRecipientsStep_eq]
        by_cases hc : x ∈ acc
        · exact List.mem_append_left _ hc
        · simp [hne, hc]
      · exact ih h2 _

/-- Everything the reply-recipient fold produces came from the
accumulator or from the processed list minus the username. -/
theorem mem_replyFold {username x : String} {l : List String} :
    ∀ acc, x ∈ l.foldl (Sampark.replyRecipientsStep username) acc →
      x ∈ acc ∨ (x ∈ l ∧ x ≠ username) := by
  induction l with
  | nil => exact fun acc h => Or.inl h
  | cons r rest ih =>
      intro acc hmem
      rw [List.foldl_cons] at hmem
      rcases ih _ hmem with h1 | h2
      · rw [replyRecipientsStep_eq] at h1
        rcases List.mem_append.mp h1 with ha | hb
        · exact Or.inl ha
        · by_cases hc : r ≠ username ∧ r ∉ acc
          · rw [if_pos hc] at hb
            rcases List.mem_singleton.mp hb with rfl
            exact Or.inr ⟨List.mem_cons_self _ _, hc.1⟩
          · rw [if_neg hc] at hb
            cases hb
      · exact Or.inr ⟨List.mem_cons_of_mem _ h2.1, h2.2⟩

/-- The reply-recipient fold never introduces duplicates. -/
theorem nodup_replyFold {username : String} {l : List String} :
    ∀ acc : List String, acc.Nodup →
      (l.foldl (Sampark.replyRecipientsStep username) acc).Nodup := by
  induction l with
  | nil => exact fun _ h => h
  | cons r rest ih =>
      intro acc hacc
      rw [List.foldl_cons]
      apply ih
      rw [replyRecipientsStep_eq]
      by_cases hc : r ≠ username ∧ r ∉ acc
      · rw [if_pos hc]
        simp [List.nodup_append, hacc, hc.2]
      · rw [if_neg hc]
        simpa using hacc

/-- C10: reply preparation keeps the original subject when it already
starts with a case-insensitive `re:` and otherwise puts `"Re: "` in
front, and the reply recipients are the original sender first, followed
(without duplicates) by exactly the cleaned original recipients that
differ from the system's username. -/
theorem c10_prepare_reply_data (orig : Sampark.MessageRec) (username : String) :
    (Sampark.prepareReplyData orig username).1.head? = some orig.sender
  ∧ (∀ x, x ∈ (Sampark.prepareReplyData orig username).1 ↔
      (x = orig.sender ∨
        (x ∈ Sampark.cleanedRecipients orig.recipients ∧ x ≠ username)))
  ∧ (Sampark.prepareReplyData orig username).1.Nodup
  ∧ (Sampark.listStartsWith (Sampark.pyLower orig.subject).toList ['r', 'e', ':'] = true →
      (Sampark.prepareReplyData orig username).2.1 = orig.subject)
  ∧ (Sampark.listStartsWith (Sampark.pyLower orig.subject).toList ['r', 'e', ':'] = false →
      (Sampark.prepareReplyData orig username).2.1 = "Re: " ++ orig.subject) := by
  refine ⟨?_, ?_, ?_, ?_, ?_⟩
  · show ((Sampark.cleanedRecipients orig.recipients).foldl
        (Sampark.replyRecipientsStep username) [orig.sender]).head? = some orig.sender
    obtain ⟨ext, hext⟩ :=
      replyFold_append username (Sampark.cleanedRecipients orig.recipients) [orig.sender]
    rw [hext]
    rfl
  · intro x
    show x ∈ (Sampark.cleanedRecipients orig.recipients).foldl
        (Sampark.replyRecipientsStep username) [orig.sender] ↔ _
    constructor
    · intro hx
      rcases mem_replyFold _ hx with h1 | h2
      · exact Or.inl (List.mem_singleton.mp h1)
      · exact Or.inr h2
    · rintro (rfl | ⟨hmem, hne⟩)
      · exact mem_replyFold_of_mem (List.mem_singleton_self _)
      · exact mem_replyFold_of_mem_list hmem hne _
  · exact nodup_replyFold _ (List.nodup_singleton _)
  · intro hs
    show (if Sampark.listStartsWith (Sampark.pyLower orig.subject).toList ['r', 'e', ':']
        then orig.subject else "Re: " ++ orig.subject) = orig.subject
    rw [hs]
    rfl
  · intro hs
    show (if Sampark.listStartsWith (Sampark.pyLower orig.subject).toList ['r', 'e', ':']
        then orig.subject else "Re: " ++ orig.subject) = "Re: " ++ orig.subject
    rw [hs]
    rfl

/-- Closed instances of `c10_prepare_reply_data` at a concrete original
message (subject without a `Re:`, recipients containing the system's
username and a duplicate) and at one whose subject already starts with
`RE:`. -/
theorem c10_prepare_reply_data_witness :
    (Sampark.prepareReplyData Sampark.c10orig "sys@x").1.head? =
      some Sampark.c10orig.sender
  ∧ (Sampark.prepareReplyData Sampark.c10orig "sys@x").2.1 =
      "Re: " ++ Sampark.c10orig.subject
  ∧ (Sampark.prepareReplyData Sampark.c10origRe "sys@x").2.1 =
      Sampark.c10origRe.subject :=
  ⟨(c10_prepare_reply_data Sampark.c10orig "sys@x").1,
   (c10_prepare_reply_data Sampark.c10orig "sys@x").2.2.2.2 (by decide),
   (c10_prepare_reply_data Sampark.c10origRe "sys@x").2.2.2.1 (by decide)⟩

/-! ### C2 / C3 / C8: the service pipeline over the shipped model layer -/

/-- Exhaustive outcomes of `process_new_email`: either the call leaves
the store exactly unchanged and returns `None` (duplicate skip, the
always-raising thread creation, or a rolled-back message save), or the
email's thread already exists, the save succeeds, and exactly the new
message is appended. -/
theorem processNewEmail_cases (db : Sampark.DB) (e : Sampark.EmailData)
    (now : Nat) (sf : Bool) :
    Sampark.processNewEmail db e now sf = (db, none)
  ∨ ∃ t, Sampark.findThreadByThreadId db e.thread_id = some t ∧ sf = false ∧
      Sampark.processNewEmail db e now sf =
        ({ db with messages := db.messages ++ [Sampark.saveMessageRecord e t.id false] },
          some (Sampark.saveMessageRecord e t.id false)) := by
  cases hdup : Sampark.messageIdExists db e.message_id with
  | true =>
      left
      unfold Sampark.processNewEmail
      rw [hdup]
      rfl
  | false =>
      cases hf : Sampark.findThreadByThreadId db e.thread_id with
      | none =>
          left
          unfold Sampark.processNewEmail
          rw [hdup, hf]
          rfl
      | some t =>
          cases sf with
          | true =>
              left
              unfold Sampark.processNewEmail Sampark.processFoundThread
              rw [hdup, hf]
              simp [Sampark.updateParticipants]
          | false =>
              right
              refine ⟨t, rfl, rfl, ?_⟩
              unfold Sampark.processNewEmail Sampark.processFoundThread
              rw [hdup, hf]
              simp [Sampark.updateParticipants]

/-- Exhaustive outcomes of `reply_to_email`: either the store is
unchanged with no reply message (original missing, send failed, or
save rolled back), or exactly the sent reply record is appended. -/
theorem replyToEmail_cases (db : Sampark.DB)
    (mid rid user bt bh : String) (sendOk svf : Bool) :
    Sampark.replyToEmail db mid rid user bt bh sendOk svf = (db, none)
  ∨ ∃ orig, Sampark.findMessageByMessageId db mid = some orig ∧
      Sampark.replyToEmail db mid rid user bt bh sendOk svf =
        ({ db with messages := db.messages ++
            [Sampark.replyMessageRecord orig rid user bt bh] },
          some (Sampark.replyMessageRecord orig rid user bt bh)) := by
  cases hfm : Sampark.findMessageByMessageId db mid with
  | none =>
      left
      unfold Sampark.replyToEmail
      rw [hfm]
  | some orig =>
      cases sendOk with
      | false =>
          left
          unfold Sampark.replyToEmail
          rw [hfm]
          rfl
      | true =>
          cases svf with
          | true =>
              left
              unfold Sampark.replyToEmail
              rw [hfm]
              rfl
          | false =>
              right
              refine ⟨orig, rfl, ?_⟩
              unfold Sampark.replyToEmail
              rw [hfm]
              rfl

/-- C2: evaluation at the failing input.  Submitting the same fresh
message (new thread key) twice on an empty store persists ZERO
messages: each call dies in `_create_email_thread` (`TypeError` on the
unmapped `participants` keyword), is caught by the generic handler and
returns `None` — not "exactly one persisted Message" with a skipped
second call, as the claim states.  The duplicate-skip logic itself is
intact: on a store whose thread already exists, the first call persists
exactly one message and the second call changes nothing, returns the
skip outcome and triggers no auto-reply. -/
theorem c2_idempotence_broken_for_new_threads :
    Sampark.processNewEmail Sampark.DB.empty Sampark.c2email 0 false
      = (Sampark.DB.empty, none)
  ∧ Sampark.processNewEmail
      (Sampark.processNewEmail Sampark.DB.empty Sampark.c2email 0 false).1
      Sampark.c2email 1 false = (Sampark.DB.empty, none)
  ∧ ((Sampark.processNewEmail
        (Sampark.processNewEmail Sampark.DB.empty Sampark.c2email 0 false).1
        Sampark.c2email 1 false).1.messages.filter
        (fun m => m.message_id == Sampark.c2email.message_id)).length = 0
  ∧ ((Sampark.processNewEmail Sampark.c2db Sampark.c2email 0 false).1.messages.filter
        (fun m => m.message_id == Sampark.c2email.message_id)).length = 1
  ∧ Sampark.processNewEmail
        (Sampark.processNewEmail Sampark.c2db Sampark.c2email 0 false).1
        Sampark.c2email 1 false
      = ((Sampark.processNewEmail Sampark.c2db Sampark.c2email 0 false).1, none)
  ∧ Sampark.triggersAutoReply
      (Sampark.processNewEmail
        (Sampark.processNewEmail Sampark.c2db Sampark.c2email 0 false).1
        Sampark.c2email 1 false) = false := by decide

/-- C3: each logical unit of work is observably atomic in the shipped
code.  Whenever a unit fails (`None` outcome: duplicate skip, the
always-raising thread creation, a failed send, or a rolled-back message
save) the persisted store is exactly unchanged; whenever it succeeds,
it appends exactly its one message and touches neither the thread list
nor anything else — so no partial state (a thread without its message,
or a message next to half-updated participants) is ever persisted by a
unit.  (This holds degenerately: thread creation always raises before
any write, and participant writes never reach the database.) -/
theorem c3_atomic_units (db : Sampark.DB) (e : Sampark.EmailData) (now : Nat)
    (sf : Bool) (mid rid user bt bh : String) (sendOk svf : Bool) :
    ((Sampark.processNewEmail db e now sf).2 = none →
      (Sampark.processNewEmail db e now sf).1 = db)
  ∧ (∀ m, (Sampark.processNewEmail db e now sf).2 = some m →
      (Sampark.processNewEmail db e now sf).1.threads = db.threads ∧
      (Sampark.processNewEmail db e now sf).1.messages = db.messages ++ [m])
  ∧ ((Sampark.replyToEmail db mid rid user bt bh sendOk svf).2 = none →
      (Sampark.replyToEmail db mid rid user bt bh sendOk svf).1 = db)
  ∧ (∀ m, (Sampark.replyToEmail db mid rid user bt bh sendOk svf).2 = some m →
      (Sampark.replyToEmail db mid rid user bt bh sendOk svf).1.threads = db.threads ∧
      (Sampark.replyToEmail db mid rid user bt bh sendOk svf).1.messages
        = db.messages ++ [m]) := by
  refine ⟨?_, ?_, ?_, ?_⟩
  · intro hn
    rcases processNewEmail_cases db e now sf with hc | ⟨t, _, _, hc⟩
    · rw [hc]
    · rw [hc] at hn
      exact Option.noConfusion hn
  · intro m hm
    rcases processNewEmail_cases db e now sf with hc | ⟨t, _, _, hc⟩
    · rw [hc] at hm
      exact Option.noConfusion hm
    · rw [hc] at hm
      have hmeq : Sampark.saveMessageRecord e t.id false = m := Option.some.inj hm
      subst hmeq
      rw [hc]
      exact ⟨rfl, rfl⟩
  · intro hn
    rcases replyToEmail_cases db mid rid user bt bh sendOk svf with hc | ⟨orig, _, hc⟩
    · rw [hc]
    · rw [hc] at hn
      exact Option.noConfusion hn
  · intro m hm
    rcases replyToEmail_cases db mid rid user bt bh sendOk svf with hc | ⟨orig, _, hc⟩
    · rw [hc] at hm
      exact Option.noConfusion hm
    · rw [hc] at hm
      have hmeq : Sampark.replyMessageRecord orig rid user bt bh = m := Option.some.inj hm
      subst hmeq
      rw [hc]
      exact ⟨rfl, rfl⟩

/-- Closed instances of `c3_atomic_units`: a failing save on a fresh
message leaves the empty store empty, and a successful unit on a seeded
thread appends exactly its message without touching the thread list. -/
theorem c3_atomic_units_witness :
    (Sampark.processNewEmail Sampark.DB.empty Sampark.c3email 0 true).1 = Sampark.DB.empty
  ∧ ((Sampark.processNewEmail Sampark.c3db Sampark.c3email 0 false).1.threads
        = Sampark.c3db.threads
     ∧ (Sampark.processNewEmail Sampark.c3db Sampark.c3email 0 false).1.messages
        = Sampark.c3db.messages ++ [Sampark.saveMessageRecord Sampark.c3email 0 false]) :=
  ⟨(c3_atomic_units Sampark.DB.empty Sampark.c3email 0 true "" "" "" "" "" true true).1
      (by decide),
   (c3_atomic_units Sampark.c3db Sampark.c3email 0 false "" "" "" "" "" true true).2.1
      (Sampark.saveMessageRecord Sampark.c3email 0 false) (by decide)⟩

/-- C8: evaluation at the failing input.  The claim's own scenario
(alice→[bob], then bob→[alice, carol] on thread key "K") run on an
empty store ends with the store still empty: both calls die in
`_create_email_thread` (`TypeError` on the unmapped `participants`
keyword), so no thread and no participant set {alice@x, bob@x, carol@x}
is ever persisted.  Even on a store whose thread "K" already exists,
processing persists the message but leaves the stored thread row
byte-for-byte unchanged — `_update_participants` writes an unmapped
attribute, so persisted participants never grow (there is no
participants column to grow). -/
theorem c8_participants_never_persisted :
    Sampark.c8state = Sampark.DB.empty
  ∧ Sampark.processNewEmail Sampark.DB.empty Sampark.c8email1 0 false
      = (Sampark.DB.empty, none)
  ∧ (Sampark.processNewEmail Sampark.c8dbSeeded Sampark.c8email2 1 false).1.threads
      = Sampark.c8dbSeeded.threads
  ∧ (Sampark.processNewEmail Sampark.c8dbSeeded Sampark.c8email2 1 false).2.isSome
      = true := by decide
